import Mathlib

/-!
Verification of the starlink-monitor aggregation core.

The definitions below are a shallow embedding of `src/pingmon.py`
(`MetricsCollector`, the `/health` route of `MetricsHandler.do_GET`,
`monitoring_loop`) and of `src/starlink_client.py`
(`StarlinkClient.get_history`'s sample-slicing logic).  Python floats are
modelled as rationals, Python ints as `Int`/`Nat`, Python dicts as
association lists, and wall-clock reads (`time.time()`) as explicit `now`
parameters.  Logging side effects are modelled as extra boolean outputs;
raising operations are modelled with explicit outcome types.
-/

/-- A value stored in a status dictionary: Python is dynamically typed, so a
dict value can be a float, an int, a bool or a string. -/
inductive FieldValue where
  | num (q : ℚ)
  | int (n : ℤ)
  | bool (b : Bool)
  | str (s : String)
deriving DecidableEq, Repr

/-- A Python dict of status fields, modelled as an association list. -/
abbrev Dict := List (String × FieldValue)

/-- `d.get(key, dflt)` on a Python dict: the stored value when the key is
present, the supplied default otherwise. -/
def dictGet (d : Dict) (key : String) (dflt : FieldValue) : FieldValue :=
  match d.find? (fun p => p.1 == key) with
  | some p => p.2
  | none => dflt

/-- The state of `MetricsCollector` (pingmon.py lines 41-74): all fields set
by `reset_metrics`, plus `last_counter` set in `__init__`. -/
structure CollectorState where
  current_drop_rate : ℚ
  peak_drop_rate : ℚ
  total_drop_time : ℚ
  total_samples : ℕ
  drop_events : ℕ
  last_update : ℚ
  last_was_dropping : Bool
  errors_total : ℕ
  scrapes_total : ℕ
  pop_ping_latency_ms : FieldValue
  downlink_throughput_bps : FieldValue
  uplink_throughput_bps : FieldValue
  gps_sats : FieldValue
  gps_valid : FieldValue
  obstruction_fraction : FieldValue
  obstruction_time : FieldValue
  snr_above_noise_floor : FieldValue
  boresight_azimuth_deg : FieldValue
  boresight_elevation_deg : FieldValue
  uptime_seconds : FieldValue
  eth_speed_mbps : FieldValue
  hardware_version : FieldValue
  software_version : FieldValue
  country_code : FieldValue
  last_counter : Option ℤ
deriving DecidableEq, Repr

/-- The collector immediately after `MetricsCollector.__init__` (which calls
`reset_metrics`): `t0` is the wall-clock time at construction, stored into
`last_update` by `reset_metrics`. -/
def initState (t0 : ℚ) : CollectorState where
  current_drop_rate := 0
  peak_drop_rate := 0
  total_drop_time := 0
  total_samples := 0
  drop_events := 0
  last_update := t0
  last_was_dropping := false
  errors_total := 0
  scrapes_total := 0
  pop_ping_latency_ms := .num 0
  downlink_throughput_bps := .num 0
  uplink_throughput_bps := .num 0
  gps_sats := .int 0
  gps_valid := .bool false
  obstruction_fraction := .num 0
  obstruction_time := .num 0
  snr_above_noise_floor := .bool false
  boresight_azimuth_deg := .num 0
  boresight_elevation_deg := .num 0
  uptime_seconds := .int 0
  eth_speed_mbps := .int 0
  hardware_version := .str "unknown"
  software_version := .str "unknown"
  country_code := .str "unknown"
  last_counter := none

/-- The body of the `for rate in history_drops` loop in
`MetricsCollector.update` (pingmon.py lines 94-105): bump `total_samples`,
add 1.0 to `total_drop_time` when the sample is positive, bump `drop_events`
on a no-drop-to-drop transition, and record the dropping flag.  Each guard
reads the pre-iteration values, exactly as in the Python statement order. -/
def processSample (s : CollectorState) (rate : ℚ) : CollectorState :=
  let is_dropping : Bool := decide (rate > 0)
  { s with
    total_samples := s.total_samples + 1
    total_drop_time := if rate > 0 then s.total_drop_time + 1 else s.total_drop_time
    drop_events :=
      if is_dropping && !s.last_was_dropping then s.drop_events + 1 else s.drop_events
    last_was_dropping := is_dropping }

/-- The status-overwrite block of `MetricsCollector.update` (pingmon.py lines
108-123): every gauge and identity field is assigned `status.get(key, default)`. -/
def applyStatus (s : CollectorState) (d : Dict) : CollectorState :=
  { s with
    pop_ping_latency_ms := dictGet d "pop_ping_latency_ms" (.num 0)
    downlink_throughput_bps := dictGet d "downlink_throughput_bps" (.num 0)
    uplink_throughput_bps := dictGet d "uplink_throughput_bps" (.num 0)
    gps_sats := dictGet d "gps_sats" (.int 0)
    gps_valid := dictGet d "gps_valid" (.bool false)
    obstruction_fraction := dictGet d "obstruction_fraction" (.num 0)
    obstruction_time := dictGet d "obstruction_time" (.num 0)
    snr_above_noise_floor := dictGet d "snr_above_noise_floor" (.bool false)
    boresight_azimuth_deg := dictGet d "boresight_azimuth_deg" (.num 0)
    boresight_elevation_deg := dictGet d "boresight_elevation_deg" (.num 0)
    uptime_seconds := dictGet d "uptime_s" (.int 0)
    eth_speed_mbps := dictGet d "eth_speed_mbps" (.int 0)
    hardware_version := dictGet d "hardware_version" (.str "unknown")
    software_version := dictGet d "software_version" (.str "unknown")
    country_code := dictGet d "country_code" (.str "unknown") }

/-- The `if status:` guard of `MetricsCollector.update` (pingmon.py line 108):
Python truthiness makes both `None` and the empty dict skip the block. -/
def applyStatusOpt (s : CollectorState) (status : Option Dict) : CollectorState :=
  match status with
  | some d => if d.isEmpty then s else applyStatus s d
  | none => s

/-- `MetricsCollector.update` (pingmon.py lines 76-130).  The wall-clock read
`time.time()` is the `now` parameter and the module-level `ALERT_THRESHOLD`
is the `thr` parameter.  The returned boolean records whether the
warning-level alert log was emitted (the only effect besides the state). -/
def update (thr : ℚ) (s : CollectorState) (drop_rate : ℚ) (history_drops : List ℚ)
    (status : Option Dict) (now : ℚ) : CollectorState × Bool :=
  let s1 := { s with
    current_drop_rate := drop_rate
    last_update := now
    peak_drop_rate := if drop_rate > s.peak_drop_rate then drop_rate else s.peak_drop_rate }
  let s2 := history_drops.foldl processSample s1
  let s3 := applyStatusOpt s2 status
  (s3, decide (drop_rate > thr))

/-- `MetricsCollector.increment_errors` (pingmon.py lines 132-135). -/
def increment_errors (s : CollectorState) : CollectorState :=
  { s with errors_total := s.errors_total + 1 }

/-- `MetricsCollector.increment_scrapes` (pingmon.py lines 137-140). -/
def increment_scrapes (s : CollectorState) : CollectorState :=
  { s with scrapes_total := s.scrapes_total + 1 }

/-- The freshness predicate evaluated by the health route (pingmon.py lines
265-267): `time.time() - collector.last_update < maxAge`. -/
def isFresh (s : CollectorState) (maxAge now : ℚ) : Bool :=
  decide (now - s.last_update < maxAge)

/-- Response body of the healthy branch of `/health` (pingmon.py line 273). -/
def healthyBody : String := "\x7b\"status\":\"healthy\"\x7d"

/-- Response body of the unhealthy branch of `/health` (pingmon.py line 278). -/
def unhealthyBody : String := "\x7b\"status\":\"unhealthy\",\"reason\":\"no recent updates\"\x7d"

/-- The `/health` branch of `MetricsHandler.do_GET` (pingmon.py lines
262-278): status code and body as a function of the collector state, the
wall clock and the configured poll interval. -/
def healthResponse (pollInterval : ℚ) (s : CollectorState) (now : ℚ) : ℕ × String :=
  let time_since_update := now - s.last_update
  let healthy := time_since_update < pollInterval * 3
  if healthy then (200, healthyBody) else (503, unhealthyBody)

/-- The sample-selection logic of `StarlinkClient.get_history`
(starlink_client.py lines 156-181): given the `samples` argument, the
`start_counter` argument, the device-reported `history.current` counter and
the device's ring buffer of drop-rate samples, return the reported
`end_counter` and the extracted slice `buf[start_idx:]`. -/
def get_history_slice (samples : ℤ) (start_counter : Option ℤ) (end_counter : ℤ)
    (buf : List ℚ) : ℤ × List ℚ :=
  let total : ℤ := buf.length
  let start_idx : ℤ :=
    match start_counter with
    | some s =>
      if s < end_counter then
        let new_samples := end_counter - s
        let new_samples := if new_samples > total then total else new_samples
        total - new_samples
      else
        if samples < 0 ∨ samples > total then 0 else total - samples
    | none =>
        if samples < 0 ∨ samples > total then 0 else total - samples
  (end_counter, buf.drop start_idx.toNat)

/-- Outcome of one client call inside the monitoring loop: the returned
value, or a raised exception (network, protocol, unexpected shape). -/
inductive FetchOutcome (α : Type) where
  | ok (val : α)
  | fail
deriving DecidableEq

/-- The environment of one Connected poll cycle: what `client.get_status`
yields (the drop rate extracted from the status dict, plus the dict itself),
what the history request yields (the device counter `history.current` and
the raw ring buffer), and the wall-clock time of the cycle. -/
structure CycleInputs where
  statusResult : FetchOutcome (ℚ × Dict)
  historyResult : FetchOutcome (ℤ × List ℚ)
  now : ℚ
deriving DecidableEq

/-- One iteration of `monitoring_loop`'s `try` block starting from the
Connected state (pingmon.py lines 306-342): fetch status, fetch history
sliced by `get_history` against `collector.last_counter`, advance
`last_counter` to the reported end counter, call `update`; on any raised
failure run the `except` block (increment the error counter, close the
channel and null it).  The boolean output is the connection state afterwards
(`false` means `client.channel = None`, i.e. Disconnected). -/
def pollCycleConnected (thr : ℚ) (col : CollectorState) (inp : CycleInputs) :
    CollectorState × Bool :=
  match inp.statusResult with
  | .fail => (increment_errors col, false)
  | .ok (rate, statusDict) =>
    match inp.historyResult with
    | .fail => (increment_errors col, false)
    | .ok (cur, buf) =>
      let fetched := get_history_slice (-1) col.last_counter cur buf
      let col1 := { col with last_counter := some fetched.1 }
      ((update thr col1 rate fetched.2 (some statusDict) inp.now).1, true)

/-- One call of the collector `update`, as made by the poller: its
`drop_rate`, `history_drops`, `status` and wall-clock arguments. -/
structure UpdateCall where
  rate : ℚ
  history : List ℚ
  status : Option Dict
  now : ℚ

/-- A sequence of `update` calls applied in order (state component only). -/
def updateMany (thr : ℚ) (s : CollectorState) (calls : List UpdateCall) : CollectorState :=
  calls.foldl (fun st c => (update thr st c.rate c.history c.status c.now).1) s

/-- The drop-event transition detector in isolation: the `(drop_events,
last_was_dropping)` pair threaded through one history sample. -/
def dropStep (p : ℕ × Bool) (rate : ℚ) : ℕ × Bool :=
  ((if decide (rate > 0) && !p.2 then p.1 + 1 else p.1), decide (rate > 0))

/-- The spec's monotonicity invariant between a pre-state and a post-state:
the five counters and the peak never decrease, and the last-update timestamp
only advances. -/
def MonoStep (s t : CollectorState) : Prop :=
  s.total_drop_time ≤ t.total_drop_time ∧ s.total_samples ≤ t.total_samples ∧
  s.drop_events ≤ t.drop_events ∧ s.errors_total ≤ t.errors_total ∧
  s.scrapes_total ≤ t.scrapes_total ∧ s.peak_drop_rate ≤ t.peak_drop_rate ∧
  s.last_update ≤ t.last_update

/-- The gauge and identity fields written by the status block of `update`,
listed in the order of pingmon.py lines 109-123. -/
def gaugeFields (s : CollectorState) : List FieldValue :=
  [s.pop_ping_latency_ms, s.downlink_throughput_bps, s.uplink_throughput_bps,
   s.gps_sats, s.gps_valid, s.obstruction_fraction, s.obstruction_time,
   s.snr_above_noise_floor, s.boresight_azimuth_deg, s.boresight_elevation_deg,
   s.uptime_seconds, s.eth_speed_mbps, s.hardware_version, s.software_version,
   s.country_code]

/-! ### Helper lemmas: field behaviour of the status block -/

lemma applyStatusOpt_total_samples (s : CollectorState) (st : Option Dict) :
    (applyStatusOpt s st).total_samples = s.total_samples := by
  cases st with
  | none => rfl
  | some d => dsimp only [applyStatusOpt]; split <;> rfl

lemma applyStatusOpt_total_drop_time (s : CollectorState) (st : Option Dict) :
    (applyStatusOpt s st).total_drop_time = s.total_drop_time := by
  cases st with
  | none => rfl
  | some d => dsimp only [applyStatusOpt]; split <;> rfl

lemma applyStatusOpt_drop_events (s : CollectorState) (st : Option Dict) :
    (applyStatusOpt s st).drop_events = s.drop_events := by
  cases st with
  | none => rfl
  | some d => dsimp only [applyStatusOpt]; split <;> rfl

lemma applyStatusOpt_last_was_dropping (s : CollectorState) (st : Option Dict) :
    (applyStatusOpt s st).last_was_dropping = s.last_was_dropping := by
  cases st with
  | none => rfl
  | some d => dsimp only [applyStatusOpt]; split <;> rfl

lemma applyStatusOpt_peak (s : CollectorState) (st : Option Dict) :
    (applyStatusOpt s st).peak_drop_rate = s.peak_drop_rate := by
  cases st with
  | none => rfl
  | some d => dsimp only [applyStatusOpt]; split <;> rfl

lemma applyStatusOpt_errors (s : CollectorState) (st : Option Dict) :
    (applyStatusOpt s st).errors_total = s.errors_total := by
  cases st with
  | none => rfl
  | some d => dsimp only [applyStatusOpt]; split <;> rfl

lemma applyStatusOpt_scrapes (s : CollectorState) (st : Option Dict) :
    (applyStatusOpt s st).scrapes_total = s.scrapes_total := by
  cases st with
  | none => rfl
  | some d => dsimp only [applyStatusOpt]; split <;> rfl

lemma applyStatusOpt_last_update (s : CollectorState) (st : Option Dict) :
    (applyStatusOpt s st).last_update = s.last_update := by
  cases st with
  | none => rfl
  | some d => dsimp only [applyStatusOpt]; split <;> rfl

/-! ### Helper lemmas: the history-sample fold -/

lemma foldl_processSample_total_samples (h : List ℚ) (s : CollectorState) :
    (h.foldl processSample s).total_samples = s.total_samples + h.length := by
  induction h generalizing s with
  | nil => simp
  | cons a t ih =>
    rw [List.foldl_cons, ih]
    simp only [processSample, List.length_cons]
    omega

lemma foldl_processSample_total_drop_time (h : List ℚ) (s : CollectorState) :
    (h.foldl processSample s).total_drop_time
      = s.total_drop_time + ((h.countP fun r => decide (r > 0) : ℕ) : ℚ) := by
  induction h generalizing s with
  | nil => simp
  | cons a t ih =>
    rw [List.foldl_cons, ih, List.countP_cons]
    by_cases hp : a > 0
    · simp [processSample, hp]
      ring
    · simp [processSample, hp]

lemma foldl_processSample_dropPair (h : List ℚ) (s : CollectorState) :
    ((h.foldl processSample s).drop_events, (h.foldl processSample s).last_was_dropping)
      = h.foldl dropStep (s.drop_events, s.last_was_dropping) := by
  induction h generalizing s with
  | nil => rfl
  | cons a t ih =>
    rw [List.foldl_cons, List.foldl_cons, ih]
    rfl

lemma foldl_processSample_peak (h : List ℚ) (s : CollectorState) :
    (h.foldl processSample s).peak_drop_rate = s.peak_drop_rate := by
  induction h generalizing s with
  | nil => rfl
  | cons a t ih => rw [List.foldl_cons, ih]; rfl

lemma foldl_processSample_errors (h : List ℚ) (s : CollectorState) :
    (h.foldl processSample s).errors_total = s.errors_total := by
  induction h generalizing s with
  | nil => rfl
  | cons a t ih => rw [List.foldl_cons, ih]; rfl

lemma foldl_processSample_scrapes (h : List ℚ) (s : CollectorState) :
    (h.foldl processSample s).scrapes_total = s.scrapes_total := by
  induction h generalizing s with
  | nil => rfl
  | cons a t ih => rw [List.foldl_cons, ih]; rfl

lemma foldl_processSample_last_update (h : List ℚ) (s : CollectorState) :
    (h.foldl processSample s).last_update = s.last_update := by
  induction h generalizing s with
  | nil => rfl
  | cons a t ih => rw [List.foldl_cons, ih]; rfl

lemma foldl_dropStep_fst_le (h : List ℚ) (p : ℕ × Bool) :
    p.1 ≤ (h.foldl dropStep p).1 := by
  induction h generalizing p with
  | nil => exact le_refl _
  | cons a t ih =>
    refine le_trans ?_ (ih (dropStep p a))
    dsimp only [dropStep]
    split <;> omega

/-! ### Helper lemmas: field behaviour of one `update` call -/

lemma update_fst (thr : ℚ) (s : CollectorState) (r : ℚ) (h : List ℚ)
    (st : Option Dict) (now : ℚ) :
    (update thr s r h st now).1
      = applyStatusOpt
          (h.foldl processSample
            { s with current_drop_rate := r, last_update := now,
                     peak_drop_rate := if r > s.peak_drop_rate then r else s.peak_drop_rate })
          st := rfl

lemma update_total_samples (thr : ℚ) (s : CollectorState) (r : ℚ) (h : List ℚ)
    (st : Option Dict) (now : ℚ) :
    ((update thr s r h st now).1).total_samples = s.total_samples + h.length := by
  rw [update_fst, applyStatusOpt_total_samples, foldl_processSample_total_samples]

lemma update_total_drop_time (thr : ℚ) (s : CollectorState) (r : ℚ) (h : List ℚ)
    (st : Option Dict) (now : ℚ) :
    ((update thr s r h st now).1).total_drop_time
      = s.total_drop_time + ((h.countP fun x => decide (x > 0) : ℕ) : ℚ) := by
  rw [update_fst, applyStatusOpt_total_drop_time, foldl_processSample_total_drop_time]

lemma update_dropPair (thr : ℚ) (s : CollectorState) (r : ℚ) (h : List ℚ)
    (st : Option Dict) (now : ℚ) :
    (((update thr s r h st now).1).drop_events, ((update thr s r h st now).1).last_was_dropping)
      = h.foldl dropStep (s.drop_events, s.last_was_dropping) := by
  rw [update_fst, applyStatusOpt_drop_events, applyStatusOpt_last_was_dropping,
    foldl_processSample_dropPair]

lemma update_peak (thr : ℚ) (s : CollectorState) (r : ℚ) (h : List ℚ)
    (st : Option Dict) (now : ℚ) :
    ((update thr s r h st now).1).peak_drop_rate = max s.peak_drop_rate r := by
  rw [update_fst, applyStatusOpt_peak, foldl_processSample_peak]
  show (if r > s.peak_drop_rate then r else s.peak_drop_rate) = max s.peak_drop_rate r
  rcases le_or_lt r s.peak_drop_rate with hle | hlt
  · rw [if_neg (not_lt.mpr hle), max_eq_left hle]
  · rw [if_pos hlt, max_eq_right (le_of_lt hlt)]

lemma update_errors (thr : ℚ) (s : CollectorState) (r : ℚ) (h : List ℚ)
    (st : Option Dict) (now : ℚ) :
    ((update thr s r h st now).1).errors_total = s.errors_total := by
  rw [update_fst, applyStatusOpt_errors, foldl_processSample_errors]

lemma update_scrapes (thr : ℚ) (s : CollectorState) (r : ℚ) (h : List ℚ)
    (st : Option Dict) (now : ℚ) :
    ((update thr s r h st now).1).scrapes_total = s.scrapes_total := by
  rw [update_fst, applyStatusOpt_scrapes, foldl_processSample_scrapes]

lemma update_last_update (thr : ℚ) (s : CollectorState) (r : ℚ) (h : List ℚ)
    (st : Option Dict) (now : ℚ) :
    ((update thr s r h st now).1).last_update = now := by
  rw [update_fst, applyStatusOpt_last_update, foldl_processSample_last_update]

/-! ### Helper lemmas: sequences of `update` calls -/

lemma updateMany_cons (thr : ℚ) (s : CollectorState) (c : UpdateCall) (cs : List UpdateCall) :
    updateMany thr s (c :: cs)
      = updateMany thr ((update thr s c.rate c.history c.status c.now).1) cs := rfl

lemma updateMany_total_samples (thr : ℚ) (s : CollectorState) (calls : List UpdateCall) :
    (updateMany thr s calls).total_samples
      = s.total_samples + (calls.map fun c => c.history.length).sum := by
  induction calls generalizing s with
  | nil => simp [updateMany]
  | cons c cs ih =>
    rw [updateMany_cons, ih, update_total_samples]
    simp only [List.map_cons, List.sum_cons]
    omega

lemma updateMany_total_drop_time (thr : ℚ) (s : CollectorState) (calls : List UpdateCall) :
    (updateMany thr s calls).total_drop_time
      = s.total_drop_time
        + (((calls.map UpdateCall.history).flatten.countP fun x => decide (x > 0) : ℕ) : ℚ) := by
  induction calls generalizing s with
  | nil => simp [updateMany]
  | cons c cs ih =>
    rw [updateMany_cons, ih, update_total_drop_time]
    simp only [List.map_cons, List.flatten_cons, List.countP_append]
    push_cast
    ring

lemma updateMany_dropPair (thr : ℚ) (s : CollectorState) (calls : List UpdateCall) :
    ((updateMany thr s calls).drop_events, (updateMany thr s calls).last_was_dropping)
      = (calls.map UpdateCall.history).flatten.foldl
          dropStep (s.drop_events, s.last_was_dropping) := by
  induction calls generalizing s with
  | nil => rfl
  | cons c cs ih =>
    rw [updateMany_cons, ih, update_dropPair]
    simp only [List.map_cons, List.flatten_cons, List.foldl_append]

lemma updateMany_peak (thr : ℚ) (s : CollectorState) (calls : List UpdateCall) :
    (updateMany thr s calls).peak_drop_rate
      = calls.foldl (fun a c => max a c.rate) s.peak_drop_rate := by
  induction calls generalizing s with
  | nil => rfl
  | cons c cs ih =>
    rw [updateMany_cons, ih, List.foldl_cons, update_peak]

lemma update_drop_events (thr : ℚ) (s : CollectorState) (r : ℚ) (h : List ℚ)
    (st : Option Dict) (now : ℚ) :
    ((update thr s r h st now).1).drop_events
      = (h.foldl dropStep (s.drop_events, s.last_was_dropping)).1 :=
  congrArg Prod.fst (update_dropPair thr s r h st now)

lemma update_some_nonempty (thr : ℚ) (s : CollectorState) (r : ℚ) (h : List ℚ) (d : Dict)
    (now : ℚ) (hd : d.isEmpty = false) :
    (update thr s r h (some d) now).1
      = applyStatus
          (h.foldl processSample
            { s with current_drop_rate := r, last_update := now,
                     peak_drop_rate := if r > s.peak_drop_rate then r else s.peak_drop_rate })
          d := by
  rw [update_fst]
  dsimp only [applyStatusOpt]
  rw [hd, if_neg Bool.false_ne_true]

/-! ### Claims -/

/-- Claim C2: drop-event counting is batch-boundary-invariant.  For every
start state and every partition of the sample stream into consecutive
batches fed to successive `update` calls, `drop_events` afterwards equals
what a single `update` call on the concatenation produces (whatever the
other arguments of that call), because `last_was_dropping` persists across
calls.  Concretely, `[0,1,1,0,1]` in one call gives a delta of 2 from the
initial state, as do `[0,1]`, `[1,0]`, `[1]` across three calls. -/
theorem c2_drop_events_batch_invariant :
    (∀ (thr : ℚ) (s : CollectorState) (calls : List UpdateCall) (r0 : ℚ)
        (st0 : Option Dict) (now0 : ℚ),
      (updateMany thr s calls).drop_events
        = ((update thr s r0 (calls.map UpdateCall.history).flatten st0 now0).1).drop_events) ∧
    ((update 1 (initState 0) 0 [0, 1, 1, 0, 1] none 0).1).drop_events = 2 ∧
    (updateMany 1 (initState 0)
      [⟨0, [0, 1], none, 0⟩, ⟨0, [1, 0], none, 0⟩, ⟨0, [1], none, 0⟩]).drop_events = 2 := by
  refine ⟨?_, by decide, by decide⟩
  intro thr s calls r0 st0 now0
  have h1 := updateMany_dropPair thr s calls
  have h2 := update_dropPair thr s r0 (calls.map UpdateCall.history).flatten st0 now0
  exact congrArg Prod.fst (h1.trans h2.symm)

/-- Claim C3: after any sequence of `update` calls from the initial
collector state, `total_samples` is the sum of the history-batch lengths and
`total_drop_time` is 1.0 times the number of history samples with value
greater than zero. -/
theorem c3_totals_after_batches (thr t0 : ℚ) (calls : List UpdateCall) :
    (updateMany thr (initState t0) calls).total_samples
        = (calls.map fun c => c.history.length).sum ∧
    (updateMany thr (initState t0) calls).total_drop_time
        = (((calls.map UpdateCall.history).flatten.countP fun x => decide (x > 0) : ℕ) : ℚ) := by
  constructor
  · rw [updateMany_total_samples]
    simp [initState]
  · rw [updateMany_total_drop_time]
    simp [initState]

/-- Claim C4 (counterexample): the claim that `peak_drop_rate` after the
first call equals the maximum of the `drop_rate` arguments of calls so far
fails for a malformed negative rate: one call with rate `-1` from the
initial state leaves the peak at `0`, not `-1`. -/
theorem c4_peak_counterexample :
    ((update 1 (initState 0) (-1) [] none 0).1).peak_drop_rate ≠ -1 := by decide

/-- Claim C4 (amended): after any sequence of `update` calls from the
initial collector state, `peak_drop_rate` equals the maximum of the initial
peak `0.0` together with all `drop_rate` arguments so far; this agrees with
the plain maximum of the arguments exactly when that maximum is
non-negative (in particular for all in-range `[0,1]` rates). -/
theorem c4_peak_eq_max_of_initial_and_rates (thr t0 : ℚ) (calls : List UpdateCall) :
    (updateMany thr (initState t0) calls).peak_drop_rate
      = (calls.map UpdateCall.rate).foldl max 0 := by
  rw [updateMany_peak, List.foldl_map]
  rfl

/-- Claim C5 (counterexample): the claim that a present `status` mapping
always overwrites every gauge/identity field fails for a present-but-empty
mapping: `if status:` treats the empty dict as absent, so a previously set
hardware version survives an update with `status = {}` instead of being
overwritten with the missing-key default `"unknown"`. -/
theorem c5_empty_status_counterexample :
    ((update 1 ((update 1 (initState 0) 0 []
            (some [("hardware_version", FieldValue.str "rev2")]) 0).1)
          0 [] (some []) 0).1).hardware_version
      ≠ dictGet [] "hardware_version" (FieldValue.str "unknown") := by decide

/-- Claim C5 (amended): for every `update` call whose `status` mapping is
present and non-empty, every gauge and identity field of the resulting state
is overwritten from the mapping, each missing key being replaced by its
documented default (0/0.0 for numeric fields, false for booleans, "unknown"
for identity labels); no exception is possible.  A present-but-empty mapping
is skipped by the `if status:` truthiness check and leaves the fields
unchanged. -/
theorem c5_status_overwrite (thr : ℚ) (s : CollectorState) (r : ℚ) (h : List ℚ) (d : Dict)
    (now : ℚ) (hd : d ≠ []) :
    gaugeFields ((update thr s r h (some d) now).1)
      = [dictGet d "pop_ping_latency_ms" (.num 0),
         dictGet d "downlink_throughput_bps" (.num 0),
         dictGet d "uplink_throughput_bps" (.num 0),
         dictGet d "gps_sats" (.int 0),
         dictGet d "gps_valid" (.bool false),
         dictGet d "obstruction_fraction" (.num 0),
         dictGet d "obstruction_time" (.num 0),
         dictGet d "snr_above_noise_floor" (.bool false),
         dictGet d "boresight_azimuth_deg" (.num 0),
         dictGet d "boresight_elevation_deg" (.num 0),
         dictGet d "uptime_s" (.int 0),
         dictGet d "eth_speed_mbps" (.int 0),
         dictGet d "hardware_version" (.str "unknown"),
         dictGet d "software_version" (.str "unknown"),
         dictGet d "country_code" (.str "unknown")] := by
  have he : d.isEmpty = false := by
    cases d with
    | nil => exact absurd rfl hd
    | cons a t => rfl
  rw [update_some_nonempty thr s r h d now he]
  rfl

/-- Witness for claim C5: a concrete one-key mapping, nonemptiness
discharged by evaluation. -/
theorem c5_witness :
    gaugeFields ((update 1 (initState 0) 0 []
        (some [("gps_sats", FieldValue.int 7)]) 0).1)
      = [dictGet [("gps_sats", FieldValue.int 7)] "pop_ping_latency_ms" (.num 0),
         dictGet [("gps_sats", FieldValue.int 7)] "downlink_throughput_bps" (.num 0),
         dictGet [("gps_sats", FieldValue.int 7)] "uplink_throughput_bps" (.num 0),
         dictGet [("gps_sats", FieldValue.int 7)] "gps_sats" (.int 0),
         dictGet [("gps_sats", FieldValue.int 7)] "gps_valid" (.bool false),
         dictGet [("gps_sats", FieldValue.int 7)] "obstruction_fraction" (.num 0),
         dictGet [("gps_sats", FieldValue.int 7)] "obstruction_time" (.num 0),
         dictGet [("gps_sats", FieldValue.int 7)] "snr_above_noise_floor" (.bool false),
         dictGet [("gps_sats", FieldValue.int 7)] "boresight_azimuth_deg" (.num 0),
         dictGet [("gps_sats", FieldValue.int 7)] "boresight_elevation_deg" (.num 0),
         dictGet [("gps_sats", FieldValue.int 7)] "uptime_s" (.int 0),
         dictGet [("gps_sats", FieldValue.int 7)] "eth_speed_mbps" (.int 0),
         dictGet [("gps_sats", FieldValue.int 7)] "hardware_version" (.str "unknown"),
         dictGet [("gps_sats", FieldValue.int 7)] "software_version" (.str "unknown"),
         dictGet [("gps_sats", FieldValue.int 7)] "country_code" (.str "unknown")] :=
  c5_status_overwrite 1 (initState 0) 0 [] [("gps_sats", FieldValue.int 7)] 0 (by decide)

/-- Claim C6: the health route returns 200 with the healthy body exactly
when `now - last_update < pollInterval * 3` (strict), otherwise 503 with the
unhealthy body, and the freshness predicate holds exactly when
`now - last_update < maxAge`. -/
theorem c6_health_route (p maxAge : ℚ) (s : CollectorState) (now : ℚ) :
    (healthResponse p s now = (200, healthyBody) ↔ now - s.last_update < p * 3) ∧
    (healthResponse p s now = (503, unhealthyBody) ↔ ¬(now - s.last_update < p * 3)) ∧
    (isFresh s maxAge now = true ↔ now - s.last_update < maxAge) := by
  have hne : ((200 : ℕ), healthyBody) ≠ ((503 : ℕ), unhealthyBody) := by decide
  have heq : healthResponse p s now
      = if now - s.last_update < p * 3 then ((200 : ℕ), healthyBody)
        else ((503 : ℕ), unhealthyBody) := rfl
  by_cases hc : now - s.last_update < p * 3
  · rw [heq, if_pos hc]
    exact ⟨⟨fun _ => hc, fun _ => rfl⟩,
           ⟨fun h12 => (hne h12).elim, fun hn => (hn hc).elim⟩,
           by simp [isFresh]⟩
  · rw [heq, if_neg hc]
    exact ⟨⟨fun h21 => (hne h21.symm).elim, fun hcc => (hc hcc).elim⟩,
           ⟨fun _ => hc, fun _ => rfl⟩,
           by simp [isFresh]⟩

/-- Claim C7: every collector operation preserves the monotonicity
invariant: `update` (for a wall clock that does not run backwards),
`increment_errors` and `increment_scrapes` never decrease any counter or the
peak, and only advance the last-update timestamp. -/
theorem c7_operations_monotonic (thr : ℚ) (s : CollectorState) (r : ℚ) (h : List ℚ)
    (st : Option Dict) (now : ℚ) (hnow : s.last_update ≤ now) :
    MonoStep s ((update thr s r h st now).1) ∧
    MonoStep s (increment_errors s) ∧ MonoStep s (increment_scrapes s) := by
  refine ⟨⟨?_, ?_, ?_, ?_, ?_, ?_, ?_⟩, ?_, ?_⟩
  · rw [update_total_drop_time]
    have hc : (0:ℚ) ≤ ((h.countP fun x => decide (x > 0) : ℕ) : ℚ) := Nat.cast_nonneg _
    linarith
  · rw [update_total_samples]
    omega
  · rw [update_drop_events]
    exact foldl_dropStep_fst_le h (s.drop_events, s.last_was_dropping)
  · exact le_of_eq (update_errors thr s r h st now).symm
  · exact le_of_eq (update_scrapes thr s r h st now).symm
  · rw [update_peak]
    exact le_max_left _ _
  · rw [update_last_update]
    exact hnow
  · exact ⟨le_refl _, le_refl _, le_refl _, Nat.le_succ _, le_refl _, le_refl _, le_refl _⟩
  · exact ⟨le_refl _, le_refl _, le_refl _, le_refl _, Nat.le_succ _, le_refl _, le_refl _⟩

/-- Witness for claim C7: a concrete call with the wall clock ahead of the
stored timestamp. -/
theorem c7_witness :
    MonoStep (initState 0) ((update 1 (initState 0) (1/2) [0, 1] none 5).1) ∧
    MonoStep (initState 0) (increment_errors (initState 0)) ∧
    MonoStep (initState 0) (increment_scrapes (initState 0)) :=
  c7_operations_monotonic 1 (initState 0) (1/2) [0, 1] none 5 (by norm_num [initState])

/-- Claim C8: `update` is total on all inputs, and the alert side effect is
pure observability: the state component of the result does not depend on the
alert threshold at all, and the alert fires exactly when the rate exceeds
the threshold. -/
theorem c8_alert_does_not_affect_state (thr thr' : ℚ) (s : CollectorState) (r : ℚ)
    (h : List ℚ) (st : Option Dict) (now : ℚ) :
    (update thr s r h st now).1 = (update thr' s r h st now).1 ∧
    ((update thr s r h st now).2 = true ↔ r > thr) :=
  ⟨rfl, by simp [update]⟩

/-- Claim C9: when any fetch of a Connected poll cycle raises (status fetch
or history fetch; the update path itself is total), the loop body increments
the error counter exactly once, leaves the rest of the collector state —
including the retained `last_counter` — unchanged, and nulls the channel
(transition to Disconnected); the cycle returns normally, so no error
terminates the loop. -/
theorem c9_connected_failure (thr : ℚ) (col : CollectorState) (inp : CycleInputs)
    (hfail : inp.statusResult = FetchOutcome.fail ∨ inp.historyResult = FetchOutcome.fail) :
    pollCycleConnected thr col inp
      = ({ col with errors_total := col.errors_total + 1 }, false) := by
  obtain ⟨sr, hr, n⟩ := inp
  rcases hfail with hs | hh
  · cases sr with
    | fail => rfl
    | ok v => simp at hs
  · cases sr with
    | fail => rfl
    | ok v =>
      cases hr with
      | fail =>
        obtain ⟨rate, dct⟩ := v
        rfl
      | ok w => simp at hh

/-- Witness for claim C9: a concrete cycle in which the status fetch raises. -/
theorem c9_witness :
    pollCycleConnected 1 (initState 0)
        ⟨FetchOutcome.fail, FetchOutcome.ok (7, [0, 1]), 5⟩
      = ({ initState 0 with errors_total := (initState 0).errors_total + 1 }, false) :=
  c9_connected_failure 1 (initState 0)
    ⟨FetchOutcome.fail, FetchOutcome.ok (7, [0, 1]), 5⟩ (Or.inl rfl)

/-- Claim C10: `last_update` is initialised to the construction time rather
than a sentinel, so before any successful update the freshness predicate and
the health route report healthy exactly while less than three poll intervals
have elapsed since construction, and unhealthy from then on. -/
theorem c10_initial_state_fresh (t0 now p : ℚ) :
    (isFresh (initState t0) (p * 3) now = true ↔ now - t0 < p * 3) ∧
    (now - t0 < p * 3 → healthResponse p (initState t0) now = (200, healthyBody)) ∧
    (p * 3 ≤ now - t0 → healthResponse p (initState t0) now = (503, unhealthyBody)) := by
  have heq : healthResponse p (initState t0) now
      = if now - t0 < p * 3 then ((200 : ℕ), healthyBody)
        else ((503 : ℕ), unhealthyBody) := rfl
  refine ⟨by simp [isFresh, initState], fun hc => ?_, fun hc => ?_⟩
  · rw [heq, if_pos hc]
  · rw [heq, if_neg (not_lt.mpr hc)]

/-- Witness for claim C10: poll interval 2, construction at time 0, probed
at time 5 (within 3 poll intervals). -/
theorem c10_witness :
    healthResponse 2 (initState 0) 5 = (200, healthyBody) :=
  (c10_initial_state_fresh 0 5 2).2.1 (by norm_num)

/-- Claim C1: evaluation of the code at the failing input.  With
`samples = -1` (as the monitoring loop always passes), a retained
`start_counter` equal to the device-reported `end_counter` (no new samples)
makes `get_history` fall into the `else` branch and return the entire ring
buffer instead of the empty list, re-delivering every already-consumed
sample. -/
theorem c1_equal_counters_redeliver_buffer :
    get_history_slice (-1) (some 5) 5 [1, 0] = (5, [1, 0]) := by decide
